import Mathlib

/-!
Verification of the DreamStream application against its specification.

The development shallowly embeds the TypeScript sources:
  * the data model of src (types): DreamAnalysis, ImageSize, ChatMessage, DreamState;
  * the service layer (geminiService): analyzeDreamAudio, generateDreamImage,
    DreamChatSession.sendMessage — the external Gemini API and the JSON.parse
    builtin are modelled as inputs/parameters, the code's own response handling
    is embedded faithfully;
  * the application state machine (App): handleRecordingComplete, reset,
    setImageSize, embedded as state-update functions, as a sequential
    under-approximating transition relation (for reachability witnesses),
    and as a faithful concurrent model (AsyncTransition over configurations
    with pending-call counters: settlements fire unconditionally, reset is
    available mid-flight) with its no-mid-flight-reset restriction
    (QuietTransition);
  * the recorder (AudioRecorder): the onstop handler's effect sequencing and
    the resolution selector's disabled-while-recording guard;
  * the chat UI (ChatInterface): handleSend.
-/

namespace DreamStream

/-- src types: the four-field analysis record produced by the Analysis Client. -/
structure DreamAnalysis where
  transcription : String
  interpretation : String
  visualPrompt : String
  emotionalTheme : String
deriving Repr, DecidableEq

/-- src types: ImageSize = '1K' | '2K' | '4K'. -/
inductive ImageSize where
  | k1
  | k2
  | k4
deriving Repr, DecidableEq

/-- src types: the step union of DreamState
('idle' | 'recording' | 'analyzing' | 'generating_image' | 'complete'). -/
inductive StepTag where
  | idle
  | recording
  | analyzing
  | generating_image
  | complete
deriving Repr, DecidableEq

/-- A recorded audio blob, treated opaquely by the application (stored and
passed to the service layer, never inspected). -/
structure Blob where
  data : String
deriving Repr, DecidableEq

/-- src types: DreamState, the App component's single state object. -/
structure DreamState where
  audioBlob : Option Blob
  analysis : Option DreamAnalysis
  imageUrl : Option String
  imageSize : ImageSize
  isProcessing : Bool
  isRecording : Bool
  step : StepTag
  error : Option String
deriving Repr, DecidableEq

/-- App: the initial useState value (all empty, imageSize '1K', step 'idle'). -/
def initialState : DreamState :=
  { audioBlob := none, analysis := none, imageUrl := none, imageSize := ImageSize.k1,
    isProcessing := false, isRecording := false, step := StepTag.idle, error := none }

/-- App handleRecordingComplete, first setState: store the blob, enter
'analyzing', set isProcessing, clear the error. -/
def beginAnalyzing (s : DreamState) (blob : Blob) : DreamState :=
  { s with audioBlob := some blob, step := StepTag.analyzing,
           isProcessing := true, error := none }

/-- App handleRecordingComplete, second setState (analysis succeeded): store
the analysis and enter 'generating_image'. -/
def analysisDone (s : DreamState) (a : DreamAnalysis) : DreamState :=
  { s with analysis := some a, step := StepTag.generating_image }

/-- App handleRecordingComplete, third setState (image ready): store the image
url, clear isProcessing, enter 'complete'. -/
def imageDone (s : DreamState) (url : String) : DreamState :=
  { s with imageUrl := some url, isProcessing := false, step := StepTag.complete }

/-- App handleRecordingComplete, catch block: clear isProcessing, return to
'idle' and set the error to the thrown error's message, falling back to
"Failed to process dream. Please try again." when the message is empty
(the source's error.message || fallback). The spread keeps every other field,
in particular analysis and imageUrl are NOT cleared here. -/
def errorUpdate (s : DreamState) (msg : String) : DreamState :=
  { s with isProcessing := false, step := StepTag.idle,
           error := some (if msg = "" then "Failed to process dream. Please try again." else msg) }

/-- App reset: rebuild the state from scratch, keeping only imageSize
(the source comment says "Keep preference"). -/
def reset (s : DreamState) : DreamState :=
  { audioBlob := none, analysis := none, imageUrl := none, imageSize := s.imageSize,
    isProcessing := false, isRecording := false, step := StepTag.idle, error := none }

/-- App setImageSize: overwrite only the imageSize field. -/
def setImageSize (s : DreamState) (size : ImageSize) : DreamState :=
  { s with imageSize := size }

/-- The trace of one run of App.handleRecordingComplete: the state after each
setState, the (prompt, size) argument pair of the generateDreamImage call when
that call was reached, and the final state. -/
structure RecordingFlow where
  afterStart : DreamState
  afterAnalysis : Option DreamState
  imageRequest : Option (String × ImageSize)
  final : DreamState
deriving Repr, DecidableEq

/-- App handleRecordingComplete as a function of the two awaited service
results. The analysis result and the image result stand for the settled
promises of analyzeDreamAudio and generateDreamImage (an error value is a
rejected promise, whose message the catch block reads). The image call, when
reached, is invoked with analysis.visualPrompt and state.imageSize exactly as
in the source. -/
def handleRecordingComplete (s : DreamState) (blob : Blob)
    (analysisResult : Except String DreamAnalysis)
    (imageResult : Except String String) : RecordingFlow :=
  let s1 := beginAnalyzing s blob
  match analysisResult with
  | Except.error e => ⟨s1, none, none, errorUpdate s1 e⟩
  | Except.ok a =>
    let s2 := analysisDone s1 a
    match imageResult with
    | Except.error e => ⟨s1, some s2, some (a.visualPrompt, s.imageSize), errorUpdate s2 e⟩
    | Except.ok url => ⟨s1, some s2, some (a.visualPrompt, s.imageSize), imageDone s2 url⟩

/-- A sequential under-approximation of the application's atomic state
updates. Each constructor, when its guard holds, is a step the program
genuinely performs, so reachability through this relation implies
program-reachability — but the guards on the settlement constructors
(step = 'analyzing' / 'generating_image') are NOT checks the code performs:
handleRecordingComplete's awaited setState continuations fire
unconditionally, and the header's reset is clickable mid-flight with no
call cancellation. The faithful concurrent model is AsyncTransition below;
this relation serves reachability witnesses and claim-conditioned
transitions. The guards that are faithful: a recording can only complete
while App renders the AudioRecorder, i.e. at step 'idle' (step stays 'idle'
for the whole capture), and the resolution selector only exists in that
same view. -/
inductive AppTransition : DreamState → DreamState → Prop where
  | recordingStarts (s : DreamState) (blob : Blob) (h : s.step = StepTag.idle) :
      AppTransition s (beginAnalyzing s blob)
  | analysisSucceeds (s : DreamState) (a : DreamAnalysis) (h : s.step = StepTag.analyzing) :
      AppTransition s (analysisDone s a)
  | analysisFails (s : DreamState) (msg : String) (h : s.step = StepTag.analyzing) :
      AppTransition s (errorUpdate s msg)
  | imageSucceeds (s : DreamState) (url : String) (h : s.step = StepTag.generating_image) :
      AppTransition s (imageDone s url)
  | imageFails (s : DreamState) (msg : String) (h : s.step = StepTag.generating_image) :
      AppTransition s (errorUpdate s msg)
  | userResets (s : DreamState) :
      AppTransition s (reset s)
  | selectsSize (s : DreamState) (size : ImageSize) (h : s.step = StepTag.idle) :
      AppTransition s (setImageSize s size)

/-- States reachable through the sequential under-approximation: a subset of
the program's reachable states (each AppTransition step is a real program
step), fit for exhibiting reachable states, not for bounding them. -/
inductive ReachableState : DreamState → Prop where
  | init : ReachableState initialState
  | next {s t : DreamState} : ReachableState s → AppTransition s t → ReachableState t

/-- A configuration of the running application: the rendered DreamState
together with the number of analyzeDreamAudio and generateDreamImage calls
currently in flight (their awaited setState continuations will fire whenever
they settle — the code never re-checks the step first). -/
structure AppConfig where
  state : DreamState
  pendingAnalysis : Nat
  pendingImage : Nat
deriving Repr, DecidableEq

/-- The faithful concurrent transition relation. A recording completes only
from step 'idle' (the recorder is mounted only there and capture keeps the
step 'idle'); it fires handleRecordingComplete's first setState and leaves
an analysis call in flight. A pending analysis call may settle at ANY step —
success fires the second setState and starts the image call, failure fires
the catch block — and likewise a pending image call; reset (the header, and
DreamResult's button) is available at every step with no cancellation of
in-flight calls; the resolution selector exists only in the 'idle' view. -/
inductive AsyncTransition : AppConfig → AppConfig → Prop where
  | recordingCompletes (c : AppConfig) (blob : Blob) (h : c.state.step = StepTag.idle) :
      AsyncTransition c ⟨beginAnalyzing c.state blob, c.pendingAnalysis + 1, c.pendingImage⟩
  | analysisSucceeds (c : AppConfig) (a : DreamAnalysis) (h : 0 < c.pendingAnalysis) :
      AsyncTransition c ⟨analysisDone c.state a, c.pendingAnalysis - 1, c.pendingImage + 1⟩
  | analysisFails (c : AppConfig) (msg : String) (h : 0 < c.pendingAnalysis) :
      AsyncTransition c ⟨errorUpdate c.state msg, c.pendingAnalysis - 1, c.pendingImage⟩
  | imageSucceeds (c : AppConfig) (url : String) (h : 0 < c.pendingImage) :
      AsyncTransition c ⟨imageDone c.state url, c.pendingAnalysis, c.pendingImage - 1⟩
  | imageFails (c : AppConfig) (msg : String) (h : 0 < c.pendingImage) :
      AsyncTransition c ⟨errorUpdate c.state msg, c.pendingAnalysis, c.pendingImage - 1⟩
  | userResets (c : AppConfig) :
      AsyncTransition c ⟨reset c.state, c.pendingAnalysis, c.pendingImage⟩
  | selectsSize (c : AppConfig) (size : ImageSize) (h : c.state.step = StepTag.idle) :
      AsyncTransition c ⟨setImageSize c.state size, c.pendingAnalysis, c.pendingImage⟩

/-- Configurations the program can reach, under the faithful concurrent
relation, from the initial render (no call in flight). -/
inductive AsyncReachable : AppConfig → Prop where
  | init : AsyncReachable ⟨initialState, 0, 0⟩
  | next {c d : AppConfig} : AsyncReachable c → AsyncTransition c d → AsyncReachable d

/-- AsyncTransition restricted to executions in which the user never resets
while a call is in flight: identical constructors, except that userResets
additionally requires both pending counters to be zero. Every other
interleaving (including settlements at unexpected steps, were any enabled)
is kept. -/
inductive QuietTransition : AppConfig → AppConfig → Prop where
  | recordingCompletes (c : AppConfig) (blob : Blob) (h : c.state.step = StepTag.idle) :
      QuietTransition c ⟨beginAnalyzing c.state blob, c.pendingAnalysis + 1, c.pendingImage⟩
  | analysisSucceeds (c : AppConfig) (a : DreamAnalysis) (h : 0 < c.pendingAnalysis) :
      QuietTransition c ⟨analysisDone c.state a, c.pendingAnalysis - 1, c.pendingImage + 1⟩
  | analysisFails (c : AppConfig) (msg : String) (h : 0 < c.pendingAnalysis) :
      QuietTransition c ⟨errorUpdate c.state msg, c.pendingAnalysis - 1, c.pendingImage⟩
  | imageSucceeds (c : AppConfig) (url : String) (h : 0 < c.pendingImage) :
      QuietTransition c ⟨imageDone c.state url, c.pendingAnalysis, c.pendingImage - 1⟩
  | imageFails (c : AppConfig) (msg : String) (h : 0 < c.pendingImage) :
      QuietTransition c ⟨errorUpdate c.state msg, c.pendingAnalysis, c.pendingImage - 1⟩
  | userResets (c : AppConfig) (h : c.pendingAnalysis = 0 ∧ c.pendingImage = 0) :
      QuietTransition c ⟨reset c.state, c.pendingAnalysis, c.pendingImage⟩
  | selectsSize (c : AppConfig) (size : ImageSize) (h : c.state.step = StepTag.idle) :
      QuietTransition c ⟨setImageSize c.state size, c.pendingAnalysis, c.pendingImage⟩

/-- Configurations reachable without a mid-flight reset. -/
inductive QuietReachable : AppConfig → Prop where
  | init : QuietReachable ⟨initialState, 0, 0⟩
  | next {c d : AppConfig} : QuietReachable c → QuietTransition c d → QuietReachable d

/-- The inductive invariant of the no-mid-flight-reset executions: the two
claim-relevant conjuncts, strengthened with the correlation between the step
and the pending counters that makes the induction go through. -/
structure QuietInv (c : AppConfig) : Prop where
  analysisPresent :
    (c.state.step = StepTag.generating_image ∨ c.state.step = StepTag.complete) →
      c.state.analysis ≠ none
  imageIff : c.state.imageUrl ≠ none ↔ c.state.step = StepTag.complete
  analyzingPending : c.state.step = StepTag.analyzing →
    c.pendingAnalysis = 1 ∧ c.pendingImage = 0
  generatingPending : c.state.step = StepTag.generating_image →
    c.pendingAnalysis = 0 ∧ c.pendingImage = 1
  otherwiseQuiet : c.state.step = StepTag.idle ∨ c.state.step = StepTag.complete ∨
      c.state.step = StepTag.recording →
    c.pendingAnalysis = 0 ∧ c.pendingImage = 0

/-! ## Service layer (geminiService) -/

/-- A JavaScript JSON value, as produced by the JSON.parse builtin. -/
inductive Json where
  | null
  | bool (b : Bool)
  | num (n : Int)
  | str (s : String)
  | arr (items : List Json)
  | obj (fields : List (String × Json))

/-- Property access on a parsed JSON value (what reading .transcription etc.
on the cast result performs at runtime): the field's value in an object,
undefined (none) otherwise. -/
def Json.getField : Json → String → Option Json
  | Json.obj fields, key => fields.lookup key
  | _, _ => none

/-- The errors the service layer can raise, with the exact messages of the
source's new Error(...) calls; jsonSyntaxError stands for the SyntaxError
JSON.parse throws on text that is not valid JSON. -/
inductive GeminiError where
  | noResponse
  | jsonSyntaxError (msg : String)
  | noImageGenerated
deriving Repr, DecidableEq

/-- The .message property of the thrown error, as App's catch block reads it. -/
def GeminiError.message : GeminiError → String
  | GeminiError.noResponse => "No response from Gemini"
  | GeminiError.jsonSyntaxError m => m
  | GeminiError.noImageGenerated => "No image generated"

/-- geminiService.analyzeDreamAudio, from response.text on: the request
construction addresses the external model, so the response's text content is
the input here; jsonParse stands for the JSON.parse builtin (error = the
SyntaxError it throws). The source checks (!text) — undefined or "" — and
throws "No response from Gemini"; otherwise it returns JSON.parse(text)
cast to DreamAnalysis WITHOUT any field validation, so the ok value is the
raw parsed JSON value. -/
def analyzeDreamAudio (jsonParse : String → Except String Json)
    (responseText : Option String) : Except GeminiError Json :=
  match responseText with
  | none => Except.error GeminiError.noResponse
  | some t =>
    if t = "" then Except.error GeminiError.noResponse
    else
      match jsonParse t with
      | Except.error m => Except.error (GeminiError.jsonSyntaxError m)
      | Except.ok v => Except.ok v

/-- Modelled from the spec: parsing a JSON value "into the DreamAnalysis
shape" — all four fields present with string values. The source never runs
such a check (it casts); this definition exists to compare the claimed
validation against what analyzeDreamAudio actually returns. -/
def decodeDreamAnalysis (v : Json) : Option DreamAnalysis :=
  match v.getField "transcription", v.getField "interpretation",
        v.getField "visualPrompt", v.getField "emotionalTheme" with
  | some (Json.str tr), some (Json.str it), some (Json.str vp), some (Json.str et) =>
      some ⟨tr, it, vp, et⟩
  | _, _, _, _ => none

/-- One inlineData payload of a response part (the image bytes, base64). -/
structure InlineData where
  mimeType : String
  data : String
deriving Repr, DecidableEq

/-- One content part of a model response candidate. -/
structure ContentPart where
  text : Option String
  inlineData : Option InlineData
deriving Repr, DecidableEq

/-- The for-loop of the live generateDreamImage: the first part whose
inlineData is present. -/
def findInlineImage : List ContentPart → Option InlineData
  | [] => none
  | p :: ps =>
    match p.inlineData with
    | some d => some d
    | none => findInlineImage ps

/-- geminiService.generateDreamImage (live variant), from the response on:
the parts of the first candidate (none when candidates/content/parts is
missing, defaulted to [] by the source's || []). Returns a data url built
from the first inline image payload, or throws "No image generated". -/
def generateDreamImageLive (parts : Option (List ContentPart)) : Except GeminiError String :=
  match findInlineImage (parts.getD []) with
  | some d => Except.ok ("data:image/png;base64," ++ d.data)
  | none => Except.error GeminiError.noImageGenerated

/-- geminiService.generateDreamImage (stubbed variant): ignores prompt and
size and resolves to a fixed placeholder url after an artificial delay. -/
def generateDreamImageStubbed : String :=
  "https://images.unsplash.com/photo-1483096954271-6785055b863d?q=80&w=2070&auto=format&fit=crop"

/-- geminiService.DreamChatSession: the local object holds only the chat
handle created from the system instruction (no message log of its own). -/
structure DreamChatSession where
  systemInstruction : String
deriving Repr, DecidableEq

/-- DreamChatSession.sendMessage, from the service response on: the source
returns response.text || "I couldn't generate a response." — the fallback on
undefined or empty text, the text itself otherwise. A total function: this
path never throws. -/
def DreamChatSession.sendMessage (_session : DreamChatSession)
    (responseText : Option String) : String :=
  match responseText with
  | none => "I couldn't generate a response."
  | some t => if t = "" then "I couldn't generate a response." else t

/-! ## Recorder (AudioRecorder) -/

/-- The observable effects of the recorder's onstop handler. -/
inductive RecorderEffect where
  | callbackInvoked (blob : Blob)
  | visualizerStopped
  | trackStopped (id : Nat)
deriving Repr, DecidableEq

/-- The outcome of invoking a JavaScript function: a normal return or a
synchronously thrown exception. -/
inductive JsOutcome (α : Type) where
  | returns (a : α)
  | throws (msg : String)
deriving Repr, DecidableEq

/-- JavaScript semantics of calling an async function: the call itself always
returns normally (a pending promise); whatever the body does — including the
eventual outcome given here — surfaces only through the promise, never as a
synchronous throw at the call site. App.handleRecordingComplete, the
onRecordingComplete callback, is such an async function. -/
def invokeAsync (_eventualOutcome : JsOutcome Unit) : JsOutcome Unit :=
  JsOutcome.returns ()

/-- The microphone MediaStream, as the onstop handler sees it: its tracks. -/
structure MediaStream where
  tracks : List Nat
deriving Repr, DecidableEq

/-- AudioRecorder's mediaRecorder.onstop handler: build the blob and invoke
onRecordingComplete(blob), then stopVisualizer(), then stop every track of
the stream — straight-line statements with no try/finally, so a synchronous
throw from the callback would abort the rest (second component: the escaping
exception, if any). -/
def onstopHandler (callbackCall : Blob → JsOutcome Unit) (blob : Blob)
    (stream : MediaStream) : List RecorderEffect × Option String :=
  match callbackCall blob with
  | JsOutcome.throws m => ([RecorderEffect.callbackInvoked blob], some m)
  | JsOutcome.returns _ =>
      (RecorderEffect.callbackInvoked blob :: RecorderEffect.visualizerStopped ::
        stream.tracks.map RecorderEffect.trackStopped, none)

/-- AudioRecorder's resolution selector: each size button carries
onClick setImageSize(size) and disabled=isRecording, so a click while
recording is rejected and a click while idle stores the size. -/
def resolutionClick (isRecording : Bool) (s : DreamState) (size : ImageSize) : DreamState :=
  if isRecording then s else setImageSize s size

/-! ## Chat UI (ChatInterface) -/

/-- src types: ChatMessage.role. -/
inductive Role where
  | user
  | model
deriving Repr, DecidableEq

/-- src types: ChatMessage. -/
structure ChatMessage where
  role : Role
  text : String
deriving Repr, DecidableEq

/-- The JavaScript String.prototype.trim builtin: strip whitespace from both
ends of the string. -/
def jsTrim (s : String) : String :=
  String.mk (((s.data.dropWhile Char.isWhitespace).reverse.dropWhile Char.isWhitespace).reverse)

/-- ChatInterface's component state: the accumulated messages, the input box,
the isLoading flag and the chat session ref. -/
structure ChatInterfaceState where
  messages : List ChatMessage
  input : String
  isLoading : Bool
  chatSession : Option DreamChatSession
deriving Repr, DecidableEq

/-- ChatInterface.handleSend as a function of the settled sendMessage promise
(ok = the reply text, error = a thrown transport failure). Returns the state
after the handler finishes and whether sendMessage was called. The guard
(!input.trim() || !chatSessionRef.current || isLoading) returns without any
state change or call; otherwise the user message is appended, the input
cleared, and the reply — or, in the catch branch, the fixed apology — is
appended, with isLoading reset by the finally block. -/
def handleSend (st : ChatInterfaceState) (sendResult : Except String String) :
    ChatInterfaceState × Bool :=
  if (jsTrim st.input == "") || st.chatSession.isNone || st.isLoading then (st, false)
  else
    let userMsg : ChatMessage := ⟨Role.user, st.input⟩
    let replyText :=
      match sendResult with
      | Except.ok r => r
      | Except.error _ => "I'm sorry, I'm having trouble connecting to the dream realm right now."
    ({ st with messages := st.messages ++ [userMsg, ⟨Role.model, replyText⟩],
               input := "", isLoading := false }, true)

/-! ## Sample values used by witnesses and counterexamples -/

/-- A concrete analysis value. -/
def sampleAnalysis : DreamAnalysis :=
  ⟨"a voice", "an interpretation", "a surreal prompt", "wonder"⟩

/-- A concrete state at step 'complete', reached by the success path. -/
def sampleCompleteState : DreamState :=
  imageDone (analysisDone (beginAnalyzing initialState ⟨"audio-bytes"⟩) sampleAnalysis)
    "https://img.example/dream.png"

/-! ## Theorems -/

/-- C5: reset — from the 'complete' step — sets analysis, imageUrl and error
to null, returns the step to 'idle', keeps imageSize exactly, and clears
audioBlob, isProcessing and isRecording. -/
theorem reset_clears_all_but_imageSize (s : DreamState) (_h : s.step = StepTag.complete) :
    (reset s).analysis = none ∧ (reset s).imageUrl = none ∧ (reset s).error = none ∧
    (reset s).step = StepTag.idle ∧ (reset s).imageSize = s.imageSize ∧
    (reset s).audioBlob = none ∧ (reset s).isProcessing = false ∧
    (reset s).isRecording = false := by
  simp [reset]

/-- Witness for C5 at the concrete complete state. -/
theorem reset_clears_all_but_imageSize_witness :
    (reset sampleCompleteState).analysis = none ∧
    (reset sampleCompleteState).imageUrl = none ∧
    (reset sampleCompleteState).error = none ∧
    (reset sampleCompleteState).step = StepTag.idle ∧
    (reset sampleCompleteState).imageSize = sampleCompleteState.imageSize ∧
    (reset sampleCompleteState).audioBlob = none ∧
    (reset sampleCompleteState).isProcessing = false ∧
    (reset sampleCompleteState).isRecording = false :=
  reset_clears_all_but_imageSize sampleCompleteState rfl

/-- C6: for a chat service response with empty (or missing) text content,
DreamChatSession.sendMessage returns the literal fallback string; it is a
total function on settled responses, so this path does not throw. -/
theorem sendMessage_empty_fallback (session : DreamChatSession) :
    session.sendMessage (some "") = "I couldn't generate a response." ∧
    session.sendMessage none = "I couldn't generate a response." := by
  exact ⟨rfl, rfl⟩

/-- C8: a resolution click while recording is rejected (the state is
unchanged), a click while idle stores the size, and the stored size is
exactly what the next generateDreamImage request receives. -/
theorem resolution_select_guarded (s : DreamState) (size : ImageSize) (blob : Blob)
    (a : DreamAnalysis) (imageResult : Except String String) :
    resolutionClick true s size = s ∧
    (resolutionClick false s size).imageSize = size ∧
    (handleRecordingComplete (resolutionClick false s size) blob
        (Except.ok a) imageResult).imageRequest = some (a.visualPrompt, size) := by
  refine ⟨rfl, rfl, ?_⟩
  cases imageResult <;> rfl

/-- C10: when the input is whitespace-only, or the session handle is missing,
or a reply is pending, handleSend leaves the state unchanged and makes no
sendMessage call. -/
theorem handleSend_guard_noop (st : ChatInterfaceState) (sendResult : Except String String)
    (h : jsTrim st.input = "" ∨ st.chatSession = none ∨ st.isLoading = true) :
    handleSend st sendResult = (st, false) := by
  unfold handleSend
  rcases h with h | h | h <;> simp [h]

/-- Witness for C10 at a whitespace-only input. -/
theorem handleSend_guard_noop_witness :
    handleSend ⟨[⟨Role.user, "hello"⟩], "   ", false, some ⟨"sys"⟩⟩ (Except.ok "reply")
      = (⟨[⟨Role.user, "hello"⟩], "   ", false, some ⟨"sys"⟩⟩, false) :=
  handleSend_guard_noop ⟨[⟨Role.user, "hello"⟩], "   ", false, some ⟨"sys"⟩⟩
    (Except.ok "reply") (Or.inl (by decide))

/-- C9: when sendMessage throws, handleSend appends the user's message and
the fixed model-style apology, keeps every previously accumulated message,
and keeps the session handle. -/
theorem chat_error_appends_apology (st : ChatInterfaceState) (e : String)
    (h1 : jsTrim st.input ≠ "") (h2 : st.chatSession ≠ none) (h3 : st.isLoading = false) :
    (handleSend st (Except.error e)).1.messages
      = st.messages ++ [⟨Role.user, st.input⟩,
          ⟨Role.model, "I'm sorry, I'm having trouble connecting to the dream realm right now."⟩] ∧
    (handleSend st (Except.error e)).1.chatSession = st.chatSession ∧
    (∀ m ∈ st.messages, m ∈ (handleSend st (Except.error e)).1.messages) := by
  have hc : ((jsTrim st.input == "") || st.chatSession.isNone || st.isLoading) = false := by
    simp [h1, h3]
    exact Option.isSome_iff_ne_none.mpr h2
  refine ⟨?_, ?_, ?_⟩ <;> simp [handleSend, hc]
  intro m hm
  exact Or.inl hm

/-- Witness for C9 at a concrete one-message conversation. -/
theorem chat_error_appends_apology_witness :
    (handleSend ⟨[⟨Role.user, "hi"⟩], "why water?", false, some ⟨"sys"⟩⟩
        (Except.error "network down")).1.messages
      = [⟨Role.user, "hi"⟩] ++ [⟨Role.user, "why water?"⟩,
          ⟨Role.model, "I'm sorry, I'm having trouble connecting to the dream realm right now."⟩] ∧
    (handleSend ⟨[⟨Role.user, "hi"⟩], "why water?", false, some ⟨"sys"⟩⟩
        (Except.error "network down")).1.chatSession = some ⟨"sys"⟩ ∧
    (∀ m ∈ [(⟨Role.user, "hi"⟩ : ChatMessage)],
      m ∈ (handleSend ⟨[⟨Role.user, "hi"⟩], "why water?", false, some ⟨"sys"⟩⟩
        (Except.error "network down")).1.messages) :=
  chat_error_appends_apology ⟨[⟨Role.user, "hi"⟩], "why water?", false, some ⟨"sys"⟩⟩
    "network down" (by decide) (by decide) rfl

/-- C2: whatever the eventual outcome of the async completion callback's body
(including a raised error), invoking it from the onstop handler returns
normally, so the handler goes on to halt the visualizer and stop every track
of the microphone stream, and no exception escapes the handler. -/
theorem stop_releases_mic_and_halts_visualizer (bodyOutcome : JsOutcome Unit)
    (blob : Blob) (stream : MediaStream) :
    (onstopHandler (fun _ => invokeAsync bodyOutcome) blob stream).2 = none ∧
    RecorderEffect.visualizerStopped ∈
      (onstopHandler (fun _ => invokeAsync bodyOutcome) blob stream).1 ∧
    ∀ t ∈ stream.tracks, RecorderEffect.trackStopped t ∈
      (onstopHandler (fun _ => invokeAsync bodyOutcome) blob stream).1 := by
  refine ⟨rfl, ?_, ?_⟩
  · simp [onstopHandler, invokeAsync]
  · intro t ht
    simp only [onstopHandler, invokeAsync]
    exact List.mem_cons_of_mem _ (List.mem_cons_of_mem _ (List.mem_map_of_mem _ ht))

/-- A concrete two-track microphone stream. -/
def sampleStream : MediaStream := ⟨[0, 1]⟩

/-- Witness for C2: a two-track stream and a callback whose body raises. -/
theorem stop_releases_mic_and_halts_visualizer_witness :
    (onstopHandler (fun _ => invokeAsync (JsOutcome.throws "boom")) ⟨"audio"⟩ sampleStream).2
      = none ∧
    RecorderEffect.visualizerStopped ∈
      (onstopHandler (fun _ => invokeAsync (JsOutcome.throws "boom")) ⟨"audio"⟩ sampleStream).1 ∧
    ∀ t ∈ sampleStream.tracks, RecorderEffect.trackStopped t ∈
      (onstopHandler (fun _ => invokeAsync (JsOutcome.throws "boom")) ⟨"audio"⟩ sampleStream).1 :=
  stop_releases_mic_and_halts_visualizer (JsOutcome.throws "boom") ⟨"audio"⟩ sampleStream

/-- C4: a response with missing or empty text makes analyzeDreamAudio fail
with the NoResponse error; with that error's message the state machine steps
from 'analyzing' (or 'generating_image') back to 'idle' with the non-empty
error message "No response from Gemini" set. -/
theorem noResponse_error_returns_to_idle (jsonParse : String → Except String Json)
    (s : DreamState)
    (h : s.step = StepTag.analyzing ∨ s.step = StepTag.generating_image) :
    analyzeDreamAudio jsonParse none = Except.error GeminiError.noResponse ∧
    analyzeDreamAudio jsonParse (some "") = Except.error GeminiError.noResponse ∧
    AppTransition s (errorUpdate s GeminiError.noResponse.message) ∧
    (errorUpdate s GeminiError.noResponse.message).step = StepTag.idle ∧
    (errorUpdate s GeminiError.noResponse.message).error = some "No response from Gemini" ∧
    "No response from Gemini" ≠ "" := by
  refine ⟨rfl, rfl, ?_, rfl, ?_, by decide⟩
  · rcases h with h | h
    · exact AppTransition.analysisFails s _ h
    · exact AppTransition.imageFails s _ h
  · simp [errorUpdate, GeminiError.message]

/-- Witness for C4 at a concrete state in 'analyzing'. -/
theorem noResponse_error_returns_to_idle_witness :
    analyzeDreamAudio (fun _ => Except.error "bad") none
      = Except.error GeminiError.noResponse ∧
    analyzeDreamAudio (fun _ => Except.error "bad") (some "")
      = Except.error GeminiError.noResponse ∧
    AppTransition (beginAnalyzing initialState ⟨"audio"⟩)
      (errorUpdate (beginAnalyzing initialState ⟨"audio"⟩) GeminiError.noResponse.message) ∧
    (errorUpdate (beginAnalyzing initialState ⟨"audio"⟩)
      GeminiError.noResponse.message).step = StepTag.idle ∧
    (errorUpdate (beginAnalyzing initialState ⟨"audio"⟩)
      GeminiError.noResponse.message).error = some "No response from Gemini" ∧
    "No response from Gemini" ≠ "" :=
  noResponse_error_returns_to_idle (fun _ => Except.error "bad")
    (beginAnalyzing initialState ⟨"audio"⟩) (Or.inl rfl)

/-- The scan finds nothing exactly when no part carries an inline payload. -/
theorem findInlineImage_eq_none_iff (l : List ContentPart) :
    findInlineImage l = none ↔ ∀ p ∈ l, p.inlineData = none := by
  induction l with
  | nil => simp [findInlineImage]
  | cons p ps ih =>
    cases hp : p.inlineData with
    | some d => simp [findInlineImage, hp]
    | none => simp [findInlineImage, hp, ih]

/-- The scan skips a leading run of parts without inline payloads. -/
theorem findInlineImage_append_of_none (pre rest : List ContentPart)
    (h : ∀ q ∈ pre, q.inlineData = none) :
    findInlineImage (pre ++ rest) = findInlineImage rest := by
  induction pre with
  | nil => rfl
  | cons q qs ih =>
    have hq : q.inlineData = none := h q (List.mem_cons_self q qs)
    simp only [List.cons_append, findInlineImage, hq]
    exact ih fun r hr => h r (List.mem_cons_of_mem q hr)

/-- C7: the live generateDreamImage fails with NoImageGenerated exactly when
no content part of the response carries an inline image payload, and when the
first inline payload is d it returns the data url built from d. -/
theorem generateDreamImage_first_inline_or_error (parts : Option (List ContentPart)) :
    (generateDreamImageLive parts = Except.error GeminiError.noImageGenerated ↔
      ∀ p ∈ parts.getD [], p.inlineData = none) ∧
    ∀ pre p post d, parts.getD [] = pre ++ p :: post →
      (∀ q ∈ pre, q.inlineData = none) → p.inlineData = some d →
      generateDreamImageLive parts = Except.ok ("data:image/png;base64," ++ d.data) := by
  constructor
  · rw [← findInlineImage_eq_none_iff]
    unfold generateDreamImageLive
    cases h : findInlineImage (parts.getD []) <;> simp [h]
  · intro pre p post d hsplit hpre hp
    unfold generateDreamImageLive
    rw [hsplit, findInlineImage_append_of_none pre (p :: post) hpre]
    simp [findInlineImage, hp]

/-- C1 counterexample: the state reached by a completed recording, a
successful analysis and a failed image generation is reachable, has step
'idle', and still holds the analysis — the catch block's spread does not
clear it. -/
theorem image_failure_leaves_analysis_behind :
    ReachableState (errorUpdate (analysisDone (beginAnalyzing initialState ⟨"audio"⟩)
        sampleAnalysis) "No image generated") ∧
    (errorUpdate (analysisDone (beginAnalyzing initialState ⟨"audio"⟩)
        sampleAnalysis) "No image generated").step = StepTag.idle ∧
    (errorUpdate (analysisDone (beginAnalyzing initialState ⟨"audio"⟩)
        sampleAnalysis) "No image generated").analysis = some sampleAnalysis := by
  refine ⟨?_, rfl, rfl⟩
  have h0 : ReachableState initialState := ReachableState.init
  have h1 : ReachableState (beginAnalyzing initialState ⟨"audio"⟩) :=
    ReachableState.next h0 (AppTransition.recordingStarts _ _ rfl)
  have h2 : ReachableState (analysisDone (beginAnalyzing initialState ⟨"audio"⟩)
      sampleAnalysis) :=
    ReachableState.next h1 (AppTransition.analysisSucceeds _ _ rfl)
  exact ReachableState.next h2 (AppTransition.imageFails _ _ rfl)

/-- Resetting mid-flight breaks the invariant outright: completing a
recording, resetting while the analysis call is pending, letting the
analysis settle (its setState fires unconditionally), resetting again while
the image call is pending, and letting the image settle reaches — in the
faithful concurrent model — a configuration at step 'complete' with a null
analysis and a set image url. This is why the amended C1 restricts the
invariant to executions without mid-flight resets. -/
theorem midflight_reset_reaches_complete_without_analysis :
    AsyncReachable ⟨imageDone (reset (analysisDone (reset (beginAnalyzing initialState
        ⟨"audio"⟩)) sampleAnalysis)) "https://img", 0, 0⟩ ∧
    (imageDone (reset (analysisDone (reset (beginAnalyzing initialState
        ⟨"audio"⟩)) sampleAnalysis)) "https://img").step = StepTag.complete ∧
    (imageDone (reset (analysisDone (reset (beginAnalyzing initialState
        ⟨"audio"⟩)) sampleAnalysis)) "https://img").analysis = none ∧
    (imageDone (reset (analysisDone (reset (beginAnalyzing initialState
        ⟨"audio"⟩)) sampleAnalysis)) "https://img").imageUrl = some "https://img" := by
  refine ⟨?_, rfl, rfl, rfl⟩
  have h0 : AsyncReachable ⟨initialState, 0, 0⟩ := AsyncReachable.init
  have h1 := AsyncReachable.next h0
    (AsyncTransition.recordingCompletes ⟨initialState, 0, 0⟩ ⟨"audio"⟩ rfl)
  have h2 := AsyncReachable.next h1 (AsyncTransition.userResets _)
  have h3 := AsyncReachable.next h2
    (AsyncTransition.analysisSucceeds _ sampleAnalysis (by decide))
  have h4 := AsyncReachable.next h3 (AsyncTransition.userResets _)
  exact AsyncReachable.next h4 (AsyncTransition.imageSucceeds _ "https://img" (by decide))

/-- In a configuration satisfying the invariant, any step other than
'complete' has no image url. -/
theorem imageUrl_none_of_not_complete {c : AppConfig} (inv : QuietInv c)
    (h : c.state.step ≠ StepTag.complete) : c.state.imageUrl = none := by
  by_contra hne
  exact h (inv.imageIff.mp hne)

/-- In a configuration satisfying the invariant, a pending analysis call
means the step is 'analyzing'. -/
theorem step_analyzing_of_pendingAnalysis {c : AppConfig} (inv : QuietInv c)
    (h : 0 < c.pendingAnalysis) : c.state.step = StepTag.analyzing := by
  cases hs : c.state.step with
  | idle => exact absurd (inv.otherwiseQuiet (Or.inl hs)).1 (by omega)
  | recording => exact absurd (inv.otherwiseQuiet (Or.inr (Or.inr hs))).1 (by omega)
  | analyzing => rfl
  | generating_image => exact absurd (inv.generatingPending hs).1 (by omega)
  | complete => exact absurd (inv.otherwiseQuiet (Or.inr (Or.inl hs))).1 (by omega)

/-- In a configuration satisfying the invariant, a pending image call means
the step is 'generating_image'. -/
theorem step_generating_of_pendingImage {c : AppConfig} (inv : QuietInv c)
    (h : 0 < c.pendingImage) : c.state.step = StepTag.generating_image := by
  cases hs : c.state.step with
  | idle => exact absurd (inv.otherwiseQuiet (Or.inl hs)).2 (by omega)
  | recording => exact absurd (inv.otherwiseQuiet (Or.inr (Or.inr hs))).2 (by omega)
  | analyzing => exact absurd (inv.analyzingPending hs).2 (by omega)
  | generating_image => rfl
  | complete => exact absurd (inv.otherwiseQuiet (Or.inr (Or.inl hs))).2 (by omega)

/-- The invariant is inductive over the no-mid-flight-reset executions. -/
theorem quietReachable_inv (c : AppConfig) (h : QuietReachable c) : QuietInv c := by
  induction h with
  | init => exact ⟨by simp [initialState], by simp [initialState], by simp [initialState],
      by simp [initialState], by simp [initialState]⟩
  | next hr ht ih =>
    cases ht with
    | recordingCompletes blob hIdle =>
      have hp := ih.otherwiseQuiet (Or.inl hIdle)
      have himg := imageUrl_none_of_not_complete ih (by simp [hIdle])
      refine ⟨?_, ?_, ?_, ?_, ?_⟩ <;> simp [beginAnalyzing, himg, hp.1, hp.2]
    | analysisSucceeds a hPA =>
      have hstep := step_analyzing_of_pendingAnalysis ih hPA
      have hp := ih.analyzingPending hstep
      have himg := imageUrl_none_of_not_complete ih (by simp [hstep])
      refine ⟨?_, ?_, ?_, ?_, ?_⟩ <;> simp [analysisDone, himg, hp.1, hp.2]
    | analysisFails msg hPA =>
      have hstep := step_analyzing_of_pendingAnalysis ih hPA
      have hp := ih.analyzingPending hstep
      have himg := imageUrl_none_of_not_complete ih (by simp [hstep])
      refine ⟨?_, ?_, ?_, ?_, ?_⟩ <;> simp [errorUpdate, himg, hp.1, hp.2]
    | imageSucceeds url hPI =>
      have hstep := step_generating_of_pendingImage ih hPI
      have hp := ih.generatingPending hstep
      have hana := ih.analysisPresent (Or.inl hstep)
      refine ⟨?_, ?_, ?_, ?_, ?_⟩ <;> simp [imageDone, hana, hp.1, hp.2]
    | imageFails msg hPI =>
      have hstep := step_generating_of_pendingImage ih hPI
      have hp := ih.generatingPending hstep
      have himg := imageUrl_none_of_not_complete ih (by simp [hstep])
      refine ⟨?_, ?_, ?_, ?_, ?_⟩ <;> simp [errorUpdate, himg, hp.1, hp.2]
    | userResets hq =>
      refine ⟨?_, ?_, ?_, ?_, ?_⟩ <;> simp [reset, hq.1, hq.2]
    | selectsSize size hIdle =>
      have hp := ih.otherwiseQuiet (Or.inl hIdle)
      have himg := imageUrl_none_of_not_complete ih (by simp [hIdle])
      refine ⟨?_, ?_, ?_, ?_, ?_⟩ <;> simp [setImageSize, himg, hp.1, hp.2, hIdle]

/-- C1 (amended): in every configuration the program reaches without the
user resetting while an analysis or image call is in flight, an analysis is
present whenever the step is 'generating_image' or 'complete', and an image
reference is present exactly when the step is 'complete'. Unrestricted, the
property fails twice over: the error transition keeps the analysis at 'idle'
(the counterexample), and a mid-flight reset can even reach 'complete' with
a null analysis (midflight_reset_reaches_complete_without_analysis). -/
theorem analysis_image_invariant_without_midflight_reset (c : AppConfig)
    (h : QuietReachable c) :
    ((c.state.step = StepTag.generating_image ∨ c.state.step = StepTag.complete) →
      c.state.analysis ≠ none) ∧
    (c.state.imageUrl ≠ none ↔ c.state.step = StepTag.complete) :=
  ⟨(quietReachable_inv c h).analysisPresent, (quietReachable_inv c h).imageIff⟩

/-- Witness for C1 at the initial configuration. -/
theorem analysis_image_invariant_without_midflight_reset_witness :
    (((⟨initialState, 0, 0⟩ : AppConfig).state.step = StepTag.generating_image ∨
        (⟨initialState, 0, 0⟩ : AppConfig).state.step = StepTag.complete) →
      (⟨initialState, 0, 0⟩ : AppConfig).state.analysis ≠ none) ∧
    ((⟨initialState, 0, 0⟩ : AppConfig).state.imageUrl ≠ none ↔
      (⟨initialState, 0, 0⟩ : AppConfig).state.step = StepTag.complete) :=
  analysis_image_invariant_without_midflight_reset ⟨initialState, 0, 0⟩ QuietReachable.init

/-- The parsed value of the response text below: a valid JSON object that
lacks the emotionalTheme field. -/
def threeFieldJson : Json :=
  Json.obj [("transcription", Json.str "t"), ("interpretation", Json.str "i"),
            ("visualPrompt", Json.str "v")]

/-- A valid JSON response text lacking the emotionalTheme field. -/
def threeFieldText : String :=
  "\x7b\"transcription\":\"t\",\"interpretation\":\"i\",\"visualPrompt\":\"v\"\x7d"

/-- JSON.parse at the response text above: the three-field object. -/
def threeFieldParse : String → Except String Json := fun t =>
  if t = threeFieldText then Except.ok threeFieldJson
  else Except.error "Unexpected token"

/-- C3 counterexample: on a response whose text is valid JSON lacking one of
the four fields, analyzeDreamAudio returns the unvalidated parsed value — it
does not fail with any error — although the value does not decode into the
DreamAnalysis shape. -/
theorem missing_field_json_not_rejected :
    analyzeDreamAudio threeFieldParse (some threeFieldText) = Except.ok threeFieldJson ∧
    decodeDreamAnalysis threeFieldJson = none ∧
    ∀ e, analyzeDreamAudio threeFieldParse (some threeFieldText) ≠ Except.error e := by
  have h1 : analyzeDreamAudio threeFieldParse (some threeFieldText)
      = Except.ok threeFieldJson := by
    simp [analyzeDreamAudio, threeFieldParse, threeFieldText]
  refine ⟨h1, rfl, ?_⟩
  intro e he
  rw [h1] at he
  exact Except.noConfusion he

/-- C3 (amended): on a response whose text is valid JSON carrying all four
string fields, analyzeDreamAudio returns exactly those strings (the parsed
object decodes to the DreamAnalysis with the provided strings, field by
field); on a response whose text is not valid JSON it fails with the parse
(SyntaxError / MalformedResponse) error. -/
theorem analyzeDreamAudio_parse_behavior (jsonParse : String → Except String Json)
    (text tr it vp et : String) (hne : text ≠ "")
    (hparse : jsonParse text = Except.ok (Json.obj [("transcription", Json.str tr),
      ("interpretation", Json.str it), ("visualPrompt", Json.str vp),
      ("emotionalTheme", Json.str et)])) :
    analyzeDreamAudio jsonParse (some text) = Except.ok (Json.obj
      [("transcription", Json.str tr), ("interpretation", Json.str it),
       ("visualPrompt", Json.str vp), ("emotionalTheme", Json.str et)]) ∧
    decodeDreamAnalysis (Json.obj [("transcription", Json.str tr),
      ("interpretation", Json.str it), ("visualPrompt", Json.str vp),
      ("emotionalTheme", Json.str et)]) = some ⟨tr, it, vp, et⟩ ∧
    ∀ t m, t ≠ "" → jsonParse t = Except.error m →
      analyzeDreamAudio jsonParse (some t) = Except.error (GeminiError.jsonSyntaxError m) := by
  refine ⟨?_, rfl, ?_⟩
  · simp [analyzeDreamAudio, hne, hparse]
  · intro t m ht hm
    simp [analyzeDreamAudio, ht, hm]

/-- Witness for C3's amended theorem at a concrete four-field response. -/
theorem analyzeDreamAudio_parse_behavior_witness :
    analyzeDreamAudio (fun _ => Except.ok (Json.obj
      [("transcription", Json.str "t"), ("interpretation", Json.str "i"),
       ("visualPrompt", Json.str "v"), ("emotionalTheme", Json.str "e")])) (some "x")
      = Except.ok (Json.obj
      [("transcription", Json.str "t"), ("interpretation", Json.str "i"),
       ("visualPrompt", Json.str "v"), ("emotionalTheme", Json.str "e")]) ∧
    decodeDreamAnalysis (Json.obj [("transcription", Json.str "t"),
      ("interpretation", Json.str "i"), ("visualPrompt", Json.str "v"),
      ("emotionalTheme", Json.str "e")]) = some ⟨"t", "i", "v", "e"⟩ ∧
    ∀ t m, t ≠ "" → (fun _ => Except.ok (Json.obj
      [("transcription", Json.str "t"), ("interpretation", Json.str "i"),
       ("visualPrompt", Json.str "v"), ("emotionalTheme", Json.str "e")])) t
        = Except.error m →
      analyzeDreamAudio (fun _ => Except.ok (Json.obj
        [("transcription", Json.str "t"), ("interpretation", Json.str "i"),
         ("visualPrompt", Json.str "v"), ("emotionalTheme", Json.str "e")])) (some t)
        = Except.error (GeminiError.jsonSyntaxError m) :=
  analyzeDreamAudio_parse_behavior (fun _ => Except.ok (Json.obj
    [("transcription", Json.str "t"), ("interpretation", Json.str "i"),
     ("visualPrompt", Json.str "v"), ("emotionalTheme", Json.str "e")]))
    "x" "t" "i" "v" "e" (by decide) rfl

end DreamStream
